import Mathlib

/-!
Verification of the OpenLogReplicator `OracleReader` core
(`src/src/OracleReader.cpp`) against its specification.

The C++ code is shallowly embedded: byte buffers become lists of naturals
(each byte a `Nat`, kept below 256 by the masks the code itself applies),
the 8-byte SCN buffer becomes an eight-field structure, machine integers
become `Nat` with explicit bounds where overflow matters, and the stateful
scheduler / checkpoint / catalog operations become explicit state-passing
functions.
-/

namespace OLR

/-! ## Codec: endianness-aware primitives
Embedded from `OracleReader.cpp` lines 383-589.  A write produces the list
of bytes the C++ code stores into `buf[0..]`, in index order; a read takes
such a list and indexes it exactly as the C++ does (`buf[i]`). -/

/-- `OracleReader::read16Little` (line 383). -/
def read16Little (buf : List Nat) : Nat :=
  (buf.getD 0 0) ||| ((buf.getD 1 0) <<< 8)

/-- `OracleReader::read16Big` (line 387). -/
def read16Big (buf : List Nat) : Nat :=
  ((buf.getD 0 0) <<< 8) ||| (buf.getD 1 0)

/-- `OracleReader::read32Little` (line 391). -/
def read32Little (buf : List Nat) : Nat :=
  (buf.getD 0 0) ||| ((buf.getD 1 0) <<< 8) |||
    ((buf.getD 2 0) <<< 16) ||| ((buf.getD 3 0) <<< 24)

/-- `OracleReader::read32Big` (line 396). -/
def read32Big (buf : List Nat) : Nat :=
  ((buf.getD 0 0) <<< 24) ||| ((buf.getD 1 0) <<< 16) |||
    ((buf.getD 2 0) <<< 8) ||| (buf.getD 3 0)

/-- `OracleReader::read56Little` (line 401). -/
def read56Little (buf : List Nat) : Nat :=
  (buf.getD 0 0) ||| ((buf.getD 1 0) <<< 8) |||
    ((buf.getD 2 0) <<< 16) ||| ((buf.getD 3 0) <<< 24) |||
    ((buf.getD 4 0) <<< 32) ||| ((buf.getD 5 0) <<< 40) |||
    ((buf.getD 6 0) <<< 48)

/-- `OracleReader::read56Big` (line 408). -/
def read56Big (buf : List Nat) : Nat :=
  ((buf.getD 0 0) <<< 48) ||| ((buf.getD 1 0) <<< 40) |||
    ((buf.getD 2 0) <<< 32) ||| ((buf.getD 3 0) <<< 24) |||
    ((buf.getD 4 0) <<< 16) ||| ((buf.getD 5 0) <<< 8) |||
    (buf.getD 6 0)

/-- `OracleReader::read64Little` (line 415). -/
def read64Little (buf : List Nat) : Nat :=
  (buf.getD 0 0) ||| ((buf.getD 1 0) <<< 8) |||
    ((buf.getD 2 0) <<< 16) ||| ((buf.getD 3 0) <<< 24) |||
    ((buf.getD 4 0) <<< 32) ||| ((buf.getD 5 0) <<< 40) |||
    ((buf.getD 6 0) <<< 48) ||| ((buf.getD 7 0) <<< 56)

/-- `OracleReader::read64Big` (line 422). -/
def read64Big (buf : List Nat) : Nat :=
  ((buf.getD 0 0) <<< 56) ||| ((buf.getD 1 0) <<< 48) |||
    ((buf.getD 2 0) <<< 40) ||| ((buf.getD 3 0) <<< 32) |||
    ((buf.getD 4 0) <<< 24) ||| ((buf.getD 5 0) <<< 16) |||
    ((buf.getD 6 0) <<< 8) ||| (buf.getD 7 0)

/-- `OracleReader::write16Little` (line 485). -/
def write16Little (val : Nat) : List Nat :=
  [val &&& 0xFF, (val >>> 8) &&& 0xFF]

/-- `OracleReader::write16Big` (line 490). -/
def write16Big (val : Nat) : List Nat :=
  [(val >>> 8) &&& 0xFF, val &&& 0xFF]

/-- `OracleReader::write32Little` (line 495). -/
def write32Little (val : Nat) : List Nat :=
  [val &&& 0xFF, (val >>> 8) &&& 0xFF, (val >>> 16) &&& 0xFF, (val >>> 24) &&& 0xFF]

/-- `OracleReader::write32Big` (line 502). -/
def write32Big (val : Nat) : List Nat :=
  [(val >>> 24) &&& 0xFF, (val >>> 16) &&& 0xFF, (val >>> 8) &&& 0xFF, val &&& 0xFF]

/-- `OracleReader::write56Little` (line 509). -/
def write56Little (val : Nat) : List Nat :=
  [val &&& 0xFF, (val >>> 8) &&& 0xFF, (val >>> 16) &&& 0xFF, (val >>> 24) &&& 0xFF,
   (val >>> 32) &&& 0xFF, (val >>> 40) &&& 0xFF, (val >>> 48) &&& 0xFF]

/-- `OracleReader::write56Big` (line 519). -/
def write56Big (val : Nat) : List Nat :=
  [(val >>> 48) &&& 0xFF, (val >>> 40) &&& 0xFF, (val >>> 32) &&& 0xFF, (val >>> 24) &&& 0xFF,
   (val >>> 16) &&& 0xFF, (val >>> 8) &&& 0xFF, val &&& 0xFF]

/-- `OracleReader::write64Little` (line 529). -/
def write64Little (val : Nat) : List Nat :=
  [val &&& 0xFF, (val >>> 8) &&& 0xFF, (val >>> 16) &&& 0xFF, (val >>> 24) &&& 0xFF,
   (val >>> 32) &&& 0xFF, (val >>> 40) &&& 0xFF, (val >>> 48) &&& 0xFF, (val >>> 56) &&& 0xFF]

/-- `OracleReader::write64Big` (line 540). -/
def write64Big (val : Nat) : List Nat :=
  [(val >>> 56) &&& 0xFF, (val >>> 48) &&& 0xFF, (val >>> 40) &&& 0xFF, (val >>> 32) &&& 0xFF,
   (val >>> 24) &&& 0xFF, (val >>> 16) &&& 0xFF, (val >>> 8) &&& 0xFF, val &&& 0xFF]

/-! ## SCN codec
The C++ SCN primitives act on a caller-supplied 8-byte buffer; we model the
buffer as an eight-field structure.  `writeSCN*` updates exactly the bytes
the C++ assigns (in the 6-byte short form, bytes 6 and 7 keep their previous
contents, as in the source). -/

/-- An 8-byte buffer, one field per byte (`buf[0]` … `buf[7]`). -/
structure Buf8 where
  b0 : Nat
  b1 : Nat
  b2 : Nat
  b3 : Nat
  b4 : Nat
  b5 : Nat
  b6 : Nat
  b7 : Nat
deriving DecidableEq

/-- Modelled from the spec: the reserved "absent" sentinel `ZERO_SCN` that
`readSCN` returns for the all-ones 6-byte pattern.  Its defining header
(`types.h`) is not under `src/`; the spec describes it as a reserved marker
distinct from every real SCN, which the all-ones 64-bit value realises. -/
def ZERO_SCN : Nat := 0xFFFFFFFFFFFFFFFF

/-- `OracleReader::readSCNLittle` (line 429). -/
def readSCNLittle (b : Buf8) : Nat :=
  if b.b0 = 0xFF ∧ b.b1 = 0xFF ∧ b.b2 = 0xFF ∧ b.b3 = 0xFF ∧ b.b4 = 0xFF ∧ b.b5 = 0xFF then
    ZERO_SCN
  else if b.b5 &&& 0x80 = 0x80 then
    b.b0 ||| (b.b1 <<< 8) ||| (b.b2 <<< 16) ||| (b.b3 <<< 24) |||
      (b.b6 <<< 32) ||| (b.b7 <<< 40) ||| (b.b4 <<< 48) ||| ((b.b5 &&& 0x7F) <<< 56)
  else
    b.b0 ||| (b.b1 <<< 8) ||| (b.b2 <<< 16) ||| (b.b3 <<< 24) |||
      (b.b4 <<< 32) ||| (b.b5 <<< 40)

/-- `OracleReader::readSCNBig` (line 443). -/
def readSCNBig (b : Buf8) : Nat :=
  if b.b0 = 0xFF ∧ b.b1 = 0xFF ∧ b.b2 = 0xFF ∧ b.b3 = 0xFF ∧ b.b4 = 0xFF ∧ b.b5 = 0xFF then
    ZERO_SCN
  else if b.b0 &&& 0x80 = 0x80 then
    b.b5 ||| (b.b4 <<< 8) ||| (b.b3 <<< 16) ||| (b.b2 <<< 24) |||
      (b.b7 <<< 32) ||| (b.b6 <<< 40) ||| (b.b1 <<< 48) ||| ((b.b0 &&& 0x7F) <<< 56)
  else
    b.b5 ||| (b.b4 <<< 8) ||| (b.b3 <<< 16) ||| (b.b2 <<< 24) |||
      (b.b1 <<< 32) ||| (b.b0 <<< 40)

/-- `OracleReader::writeSCNLittle` (line 551). -/
def writeSCNLittle (b : Buf8) (val : Nat) : Buf8 :=
  if val < 0x800000000000 then
    { b with
      b0 := val &&& 0xFF, b1 := (val >>> 8) &&& 0xFF, b2 := (val >>> 16) &&& 0xFF,
      b3 := (val >>> 24) &&& 0xFF, b4 := (val >>> 32) &&& 0xFF, b5 := (val >>> 40) &&& 0xFF }
  else
    { b with
      b0 := val &&& 0xFF, b1 := (val >>> 8) &&& 0xFF, b2 := (val >>> 16) &&& 0xFF,
      b3 := (val >>> 24) &&& 0xFF, b4 := (val >>> 48) &&& 0xFF,
      b5 := ((val >>> 56) &&& 0xFF) ||| 0x80, b6 := (val >>> 32) &&& 0xFF,
      b7 := (val >>> 40) &&& 0xFF }

/-- `OracleReader::writeSCNBig` (line 571). -/
def writeSCNBig (b : Buf8) (val : Nat) : Buf8 :=
  if val < 0x800000000000 then
    { b with
      b5 := val &&& 0xFF, b4 := (val >>> 8) &&& 0xFF, b3 := (val >>> 16) &&& 0xFF,
      b2 := (val >>> 24) &&& 0xFF, b1 := (val >>> 32) &&& 0xFF, b0 := (val >>> 40) &&& 0xFF }
  else
    { b with
      b5 := val &&& 0xFF, b4 := (val >>> 8) &&& 0xFF, b3 := (val >>> 16) &&& 0xFF,
      b2 := (val >>> 24) &&& 0xFF, b1 := (val >>> 48) &&& 0xFF,
      b0 := ((val >>> 56) &&& 0xFF) ||| 0x80, b7 := (val >>> 32) &&& 0xFF,
      b6 := (val >>> 40) &&& 0xFF }

/-! ## Reader state, checkpoint and bootstrap
Embedded from `OracleReader.cpp`: `readCheckpoint` (line 775),
`writeCheckpoint` (line 803), `initialize` (line 592). -/

/-- The slice of a `Transaction` the checkpoint logic reads
(`transaction->firstSequence`, a `typeseq`, i.e. `uint32_t`). -/
structure Transaction where
  firstSequence : Nat
deriving DecidableEq

/-- The fields of `OracleReader` that the checkpoint / bootstrap code uses.
`transactionHeap` lists `transactionHeap.heap[1..heapSize]` in heap order. -/
structure ReaderState where
  database : String
  databaseSequence : Nat
  databaseScn : Nat
  resetlogs : Nat
  bigEndian : Bool
  conId : Nat
  databaseContext : String
  transactionHeap : List Transaction
deriving DecidableEq

/-- The checkpoint record written to `<database>.json`
(keys `database`, `sequence`, `scn`, `resetlogs`). -/
structure CheckpointRecord where
  database : String
  sequence : Nat
  scn : Nat
  resetlogs : Nat
deriving DecidableEq

/-- `OracleReader::writeCheckpoint` (line 803): the record it serialises.
The C++ loop scans `transactionHeap.heap[1..heapSize]` with `minSequence`
starting at `0xFFFFFFFF` and finally falls back to `databaseSequence` when
`minSequence` is still `0xFFFFFFFF`. -/
def writeCheckpoint (s : ReaderState) : CheckpointRecord :=
  let minSequence :=
    s.transactionHeap.foldl
      (fun m t => if m > t.firstSequence then t.firstSequence else m) 0xFFFFFFFF
  let minSequence := if minSequence = 0xFFFFFFFF then s.databaseSequence else minSequence
  { database := s.database, sequence := minSequence, scn := s.databaseScn,
    resetlogs := s.resetlogs }

/-- A parsed `<database>.json` checkpoint document. -/
structure CheckpointDoc where
  database : String
  sequence : Nat
  scn : Nat
  resetlogs : Nat
deriving DecidableEq

/-- `OracleReader::readCheckpoint` (line 775).  The file input is
`none` when `<database>.json` is absent, `some none` when its contents are
empty or fail to parse as JSON, and `some (some doc)` when parsed. -/
def readCheckpoint (s : ReaderState) (file : Option (Option CheckpointDoc)) : ReaderState :=
  match file with
  | none => s
  | some none => s
  | some (some doc) =>
    if s.database ≠ doc.database then s
    else { s with databaseSequence := doc.sequence, resetlogs := doc.resetlogs,
                  databaseScn := doc.scn }

/-- The single row of the bootstrap query against `SYS.V_$DATABASE` joined
with `V_$TRANSPORTABLE_PLATFORM`, `V_$VERSION` and `V_$DATABASE_INCARNATION`
(line 603).  `banner11g` models `VERSION.find("Oracle Database 11g") != npos`. -/
structure DatabaseRow where
  logMode : String
  supplementalLogDataMin : String
  endianFormat : String
  currentScn : Nat
  resetlogsId : Nat
  banner11g : Bool
  dbName : String
deriving DecidableEq

/-- `OracleReader::initialize` (line 592), embedded over the query results:
`row?` is the row of the main bootstrap query (`none` when the query yields
no row or throws), `conIdRow` the `CON_ID` row, `logRow` the `SEQUENCE#` of
`V_$LOG WHERE status = CURRENT` (`none` when absent or the query throws).
Returns the C++ return value paired with the updated reader state.  The
endianness selection (assigning the Big function table) is modelled by the
`bigEndian` flag. -/
def initReader (s : ReaderState) (row? : Option DatabaseRow)
    (conIdRow : Option Nat) (logRow : Option Nat) : Nat × ReaderState :=
  match row? with
  | none => (0, s)
  | some row =>
    if row.logMode ≠ "ARCHIVELOG" then (0, s)
    else if row.supplementalLogDataMin ≠ "YES" then (0, s)
    else
      let s := if row.endianFormat = "Big" then { s with bigEndian := true } else s
      if s.resetlogs ≠ 0 ∧ row.resetlogsId ≠ s.resetlogs then (0, s)
      else
        let s := { s with resetlogs := row.resetlogsId }
        let s :=
          if ¬row.banner11g then
            match conIdRow with
            | some c => { s with conId := c }
            | none => s
          else s
        let s := { s with databaseContext := row.dbName }
        let s :=
          if s.databaseSequence = 0 ∨ s.databaseScn = 0 then
            match logRow with
            | some seq => { s with databaseSequence := seq, databaseScn := row.currentScn }
            | none => s
          else s
        if s.databaseSequence = 0 ∨ s.databaseScn = 0 then (0, s) else (1, s)

/-! ## Scheduler: archive phase
Embedded from `OracleReader::run`, lines 250-284.  `archiveRedoQueue` is a
`std::priority_queue` whose comparator orders by descending `sequence`, so
`top()` is the handle with the smallest sequence. -/

/-- The slice of an `OracleReaderRedo` handle the archive phase reads. -/
structure RedoHandle where
  sequence : Nat
deriving DecidableEq

/-- `archiveRedoQueue.top()`: the handle with the smallest `sequence`
(the first such handle when several tie). -/
def pqTop : List RedoHandle → Option RedoHandle
  | [] => none
  | r :: rs => some (rs.foldl (fun a b => if b.sequence < a.sequence then b else a) r)

/-- Outcome of one archive-phase iteration (lines 250-272). -/
inductive ArchOutcome where
  /-- The queue is empty: the `while` loop ends. -/
  | phaseEnd : ArchOutcome
  /-- `redo->sequence < databaseSequence`: the `continue` at line 263.
  Note the source does NOT pop the queue on this path. -/
  | dropStale : ArchOutcome
  /-- `redo->sequence > databaseSequence`: the `RedoLogException` thrown at
  line 266 terminates the loop. -/
  | fatalGap : Nat → ArchOutcome
  /-- `redo->sequence == databaseSequence`: the handle is dispatched to
  `redo->processLog()` (line 272). -/
  | dispatch : RedoHandle → ArchOutcome
deriving DecidableEq

/-- One iteration of the archive-phase `while` loop, up to the dispatch
decision (lines 250-272): returns the outcome, the queue as it stands when
the iteration ends or the dispatch starts, and `databaseSequence` (the
expected sequence) likewise.  The `clone` handoff (lines 256-260) mutates
only the in-flight reader buffers, never the queue or `databaseSequence`,
so it does not appear in this slice.  Popping and advancing
`databaseSequence` happen only after a successful `processLog` (lines
279-281), i.e. after a `dispatch` outcome. -/
def archiveIter (queue : List RedoHandle) (databaseSequence : Nat) :
    ArchOutcome × List RedoHandle × Nat :=
  match pqTop queue with
  | none => (.phaseEnd, queue, databaseSequence)
  | some redo =>
    if redo.sequence < databaseSequence then (.dropStale, queue, databaseSequence)
    else if redo.sequence > databaseSequence then
      (.fatalGap redo.sequence, queue, databaseSequence)
    else (.dispatch redo, queue, databaseSequence)

/-! ## Catalog
Embedded from `OracleReader::checkDict` (line 372), `addToDict` (line 377)
and `addTable` (line 702). -/

/-- The slice of an `OracleObject` that `addTable` constructs (line 733):
`OracleObject(objn, objd, depdendencies, cluCols, options, owner, objectName)`. -/
structure OracleObject where
  objn : Nat
  objd : Nat
  dependencies : Nat
  cluCols : Nat
  options : Nat
  owner : String
  name : String
deriving DecidableEq

/-- `objectMap`, a `std::map<typeobj, OracleObject*>`: an association list of
keys to nullable pointers (`none` models a null pointer value). -/
abbrev ObjMap : Type := List (Nat × Option OracleObject)

/-- `std::map::operator[]`: returns the mapped value for the key, default
inserting a value-initialised entry (a null pointer) when the key is absent.
Returns the read value together with the (possibly grown) map. -/
def mapIndex (m : ObjMap) (k : Nat) : Option OracleObject × ObjMap :=
  match m.lookup k with
  | some v => (v, m)
  | none => (none, m ++ [(k, none)])

/-- Replace the value stored under `k` (the assignment through
`operator[]` after the key is known to be present). -/
def mapStore : ObjMap → Nat → Option OracleObject → ObjMap
  | [], k, v => [(k, v)]
  | (k1, v1) :: t, k, v => if k1 = k then (k1, v) :: t else (k1, v1) :: mapStore t k v

/-- `OracleReader::checkDict` (line 372): `objectMap[objn]` and return it.
`objd` is accepted and ignored, as in the source. -/
def checkDict (objn objd : Nat) (m : ObjMap) : Option OracleObject × ObjMap :=
  mapIndex m objn

/-- `OracleReader::addToDict` (line 377): store the object only when
`objectMap[object->objn]` is currently null. -/
def addToDict (obj : OracleObject) (m : ObjMap) : ObjMap :=
  let p := mapIndex m obj.objn
  if p.1 = none then mapStore p.2 obj.objn (some obj) else p.2

/-- One row of the `addTable` metadata query (line 711): `DATAOBJ#`,
`OBJ#`, `CLUCOLS`, `USERNAME`, object name, and the decoded
`dependencies` flag.  `objdNull` models `stmt.rset->isNull(1)` and
`cluColsNull` models `stmt.rset->isNull(3)`. -/
structure TabRow where
  objdNull : Bool
  objd : Nat
  objn : Nat
  cluColsNull : Bool
  cluColsVal : Nat
  owner : String
  objectName : String
  dependencies : Nat
deriving DecidableEq

/-- The object `addTable` constructs for one accepted metadata row
(lines 727-733).  `cluCols` is initialised to 0; when `CLUCOLS` is non-null
the C++ calls `stmt.rset->getNumber(3)` but discards the result (line 730),
so the fetched value never reaches the constructor — the `let` below mirrors
that discarded read. -/
def buildObject (row : TabRow) : Option OracleObject :=
  if row.objdNull then none
  else
    let cluCols : Nat := 0
    let discarded : Nat := if ¬row.cluColsNull then row.cluColsVal else 0
    let _ := discarded
    some { objn := row.objn, objd := row.objd, dependencies := row.dependencies,
           cluCols := cluCols, options := 0, owner := row.owner, name := row.objectName }

/-- `OracleReader::addTable` (line 702) restricted to its catalog effect:
for each metadata row, build the object (skipping null-`DATAOBJ#` rows) and
insert it via `addToDict`.  `options` is threaded as 0 here; it does not
affect any claim. -/
def addTable (rows : List TabRow) (m : ObjMap) : ObjMap :=
  rows.foldl
    (fun acc row =>
      match buildObject row with
      | none => acc
      | some obj => addToDict obj acc)
    m

/-! ## Concrete sample inputs used by witnesses and counterexamples -/

/-- An all-zero 8-byte buffer. -/
def zeroBuf : Buf8 := ⟨0, 0, 0, 0, 0, 0, 0, 0⟩

/-- A reader state with one open transaction whose `firstSequence` is the
`uint32_t` maximum `0xFFFFFFFF` (the loop's sentinel initial value). -/
def ceC2State : ReaderState :=
  { database := "ORCL", databaseSequence := 7, databaseScn := 500, resetlogs := 3,
    bigEndian := false, conId := 0, databaseContext := "",
    transactionHeap := [⟨0xFFFFFFFF⟩] }

/-- The spec's checkpoint scenario: expected sequence 200, two open
transactions with `firstSequence` 195 and 198. -/
def wC2State : ReaderState :=
  { database := "ORCL", databaseSequence := 200, databaseScn := 1000, resetlogs := 3,
    bigEndian := false, conId := 0, databaseContext := "",
    transactionHeap := [⟨195⟩, ⟨198⟩] }

/-- A cold-start reader state (everything zero). -/
def coldState : ReaderState :=
  { database := "ORCL", databaseSequence := 0, databaseScn := 0, resetlogs := 0,
    bigEndian := false, conId := 0, databaseContext := "", transactionHeap := [] }

/-- The spec's incarnation-mismatch scenario: stored `resetlogs = 1`. -/
def wC5State : ReaderState :=
  { database := "ORCL", databaseSequence := 50, databaseScn := 900, resetlogs := 1,
    bigEndian := false, conId := 0, databaseContext := "", transactionHeap := [] }

/-- A healthy bootstrap row whose live `RESETLOGS_ID` is 2. -/
def wC5Row : DatabaseRow :=
  { logMode := "ARCHIVELOG", supplementalLogDataMin := "YES", endianFormat := "Little",
    currentScn := 1234, resetlogsId := 2, banner11g := false, dbName := "ORCL" }

/-- A metadata row for a plain (non-partitioned) table whose `CLUCOLS`
column is non-null and equal to 7. -/
def wC10Row : TabRow :=
  { objdNull := false, objd := 10, objn := 5, cluColsNull := false, cluColsVal := 7,
    owner := "OWN", objectName := "TAB", dependencies := 0 }

/-- The descriptor `addTable` builds from `wC10Row`. -/
def wC10Obj : OracleObject :=
  { objn := 5, objd := 10, dependencies := 0, cluCols := 0, options := 0,
    owner := "OWN", name := "TAB" }

/-! ## Generic bit-packing lemmas used to reason about the codec -/

theorem and255_eq_mod (x : Nat) : x &&& 255 = x % 256 := by
  have h := Nat.and_pow_two_sub_one_eq_mod x 8
  norm_num at h
  exact h

theorem lor_shl_eq_add (k x y : Nat) (h : x < 2 ^ k) :
    x ||| (y <<< k) = x + y * 2 ^ k := by
  rw [Nat.shiftLeft_eq, Nat.lor_comm, Nat.mul_comm y (2 ^ k),
    ← Nat.mul_add_lt_is_or h y]
  omega

theorem shr_and255 (x k : Nat) : (x >>> k) &&& 255 = x / 2 ^ k % 256 := by
  rw [Nat.shiftRight_eq_div_pow, and255_eq_mod]

theorem lor_eq_add_high (k x y : Nat) (hx : x % 2 ^ k = 0) (hy : y < 2 ^ k) :
    x ||| y = x + y := by
  have hq : x = 2 ^ k * (x / 2 ^ k) :=
    (Nat.mul_div_cancel' (Nat.dvd_of_mod_eq_zero hx)).symm
  rw [hq, ← Nat.mul_add_lt_is_or hy (x / 2 ^ k)]

theorem or128_eq_add (x : Nat) (h : x < 128) : x ||| 128 = x + 128 := by
  have hmul := Nat.mul_add_lt_is_or (show x < 2 ^ 7 by omega) 1
  norm_num at hmul
  rw [Nat.lor_comm]
  omega

theorem and128_eq_zero (x : Nat) (h : x < 128) : x &&& 128 = 0 := by
  have h7 : x.testBit 7 = false := Nat.testBit_lt_two_pow (by omega)
  have := Nat.and_two_pow x 7
  rw [h7] at this
  norm_num at this
  exact this

theorem and127_eq_self (x : Nat) (h : x < 128) : x &&& 127 = x := by
  have := Nat.and_pow_two_sub_one_of_lt_two_pow (show x < 2 ^ 7 by omega)
  norm_num at this
  exact this

theorem or128_and128 (x : Nat) (h : x < 128) : (x ||| 128) &&& 128 = 128 := by
  rw [Nat.and_distrib_right, and128_eq_zero x h, Nat.and_self]
  simp

theorem or128_and127 (x : Nat) (h : x < 128) : (x ||| 128) &&& 127 = x := by
  have h0 : (128 : Nat) &&& 127 = 0 := by decide
  rw [Nat.and_distrib_right, and127_eq_self x h, h0, Nat.or_zero]

/-! ## Codec round trips (claims C8 and C1) -/

theorem rt16Little (v : Nat) (h : v < 2 ^ 16) : read16Little (write16Little v) = v := by
  simp only [read16Little, write16Little, List.getD, List.get?, Option.getD_some]
  rw [and255_eq_mod, shr_and255]
  rw [lor_shl_eq_add 8 _ _ (by omega)]
  omega

theorem rt16Big (v : Nat) (h : v < 2 ^ 16) : read16Big (write16Big v) = v := by
  simp only [read16Big, write16Big, List.getD, List.get?, Option.getD_some,
    Nat.shiftLeft_eq]
  rw [shr_and255, and255_eq_mod]
  rw [lor_eq_add_high 8 ((v / 2 ^ 8 % 256) * 2 ^ 8) (v % 256) (by omega) (by omega)]
  omega

theorem rt32Little (v : Nat) (h : v < 2 ^ 32) : read32Little (write32Little v) = v := by
  simp only [read32Little, write32Little, List.getD, List.get?, Option.getD_some]
  rw [and255_eq_mod, shr_and255, shr_and255, shr_and255]
  rw [lor_shl_eq_add 8 _ _ (by omega)]
  rw [lor_shl_eq_add 16 _ _ (by omega)]
  rw [lor_shl_eq_add 24 _ _ (by omega)]
  omega

theorem rt32Big (v : Nat) (h : v < 2 ^ 32) : read32Big (write32Big v) = v := by
  simp only [read32Big, write32Big, List.getD, List.get?, Option.getD_some,
    Nat.shiftLeft_eq]
  rw [shr_and255, shr_and255, shr_and255, and255_eq_mod]
  rw [lor_eq_add_high 24 ((v / 2 ^ 24 % 256) * 2 ^ 24) ((v / 2 ^ 16 % 256) * 2 ^ 16)
    (by omega) (by omega)]
  rw [lor_eq_add_high 16 ((v / 2 ^ 24 % 256) * 2 ^ 24 + (v / 2 ^ 16 % 256) * 2 ^ 16)
    ((v / 2 ^ 8 % 256) * 2 ^ 8) (by omega) (by omega)]
  rw [lor_eq_add_high 8
    ((v / 2 ^ 24 % 256) * 2 ^ 24 + (v / 2 ^ 16 % 256) * 2 ^ 16 + (v / 2 ^ 8 % 256) * 2 ^ 8)
    (v % 256) (by omega) (by omega)]
  omega

theorem rt56Little (v : Nat) (h : v < 2 ^ 56) : read56Little (write56Little v) = v := by
  simp only [read56Little, write56Little, List.getD, List.get?, Option.getD_some]
  rw [and255_eq_mod, shr_and255, shr_and255, shr_and255, shr_and255, shr_and255, shr_and255]
  rw [lor_shl_eq_add 8 _ _ (by omega)]
  rw [lor_shl_eq_add 16 _ _ (by omega)]
  rw [lor_shl_eq_add 24 _ _ (by omega)]
  rw [lor_shl_eq_add 32 _ _ (by omega)]
  rw [lor_shl_eq_add 40 _ _ (by omega)]
  rw [lor_shl_eq_add 48 _ _ (by omega)]
  omega

theorem rt56Big (v : Nat) (h : v < 2 ^ 56) : read56Big (write56Big v) = v := by
  simp only [read56Big, write56Big, List.getD, List.get?, Option.getD_some,
    Nat.shiftLeft_eq]
  rw [shr_and255, shr_and255, shr_and255, shr_and255, shr_and255, shr_and255, and255_eq_mod]
  rw [lor_eq_add_high 48 ((v / 2 ^ 48 % 256) * 2 ^ 48) ((v / 2 ^ 40 % 256) * 2 ^ 40)
    (by omega) (by omega)]
  rw [lor_eq_add_high 40 ((v / 2 ^ 48 % 256) * 2 ^ 48 + (v / 2 ^ 40 % 256) * 2 ^ 40)
    ((v / 2 ^ 32 % 256) * 2 ^ 32) (by omega) (by omega)]
  rw [lor_eq_add_high 32
    ((v / 2 ^ 48 % 256) * 2 ^ 48 + (v / 2 ^ 40 % 256) * 2 ^ 40 + (v / 2 ^ 32 % 256) * 2 ^ 32)
    ((v / 2 ^ 24 % 256) * 2 ^ 24) (by omega) (by omega)]
  rw [lor_eq_add_high 24
    ((v / 2 ^ 48 % 256) * 2 ^ 48 + (v / 2 ^ 40 % 256) * 2 ^ 40 + (v / 2 ^ 32 % 256) * 2 ^ 32
      + (v / 2 ^ 24 % 256) * 2 ^ 24)
    ((v / 2 ^ 16 % 256) * 2 ^ 16) (by omega) (by omega)]
  rw [lor_eq_add_high 16
    ((v / 2 ^ 48 % 256) * 2 ^ 48 + (v / 2 ^ 40 % 256) * 2 ^ 40 + (v / 2 ^ 32 % 256) * 2 ^ 32
      + (v / 2 ^ 24 % 256) * 2 ^ 24 + (v / 2 ^ 16 % 256) * 2 ^ 16)
    ((v / 2 ^ 8 % 256) * 2 ^ 8) (by omega) (by omega)]
  rw [lor_eq_add_high 8
    ((v / 2 ^ 48 % 256) * 2 ^ 48 + (v / 2 ^ 40 % 256) * 2 ^ 40 + (v / 2 ^ 32 % 256) * 2 ^ 32
      + (v / 2 ^ 24 % 256) * 2 ^ 24 + (v / 2 ^ 16 % 256) * 2 ^ 16 + (v / 2 ^ 8 % 256) * 2 ^ 8)
    (v % 256) (by omega) (by omega)]
  omega

theorem rt64Little (v : Nat) (h : v < 2 ^ 64) : read64Little (write64Little v) = v := by
  simp only [read64Little, write64Little, List.getD, List.get?, Option.getD_some]
  rw [and255_eq_mod, shr_and255, shr_and255, shr_and255, shr_and255, shr_and255,
    shr_and255, shr_and255]
  rw [lor_shl_eq_add 8 _ _ (by omega)]
  rw [lor_shl_eq_add 16 _ _ (by omega)]
  rw [lor_shl_eq_add 24 _ _ (by omega)]
  rw [lor_shl_eq_add 32 _ _ (by omega)]
  rw [lor_shl_eq_add 40 _ _ (by omega)]
  rw [lor_shl_eq_add 48 _ _ (by omega)]
  rw [lor_shl_eq_add 56 _ _ (by omega)]
  omega

theorem rt64Big (v : Nat) (h : v < 2 ^ 64) : read64Big (write64Big v) = v := by
  simp only [read64Big, write64Big, List.getD, List.get?, Option.getD_some,
    Nat.shiftLeft_eq]
  rw [shr_and255, shr_and255, shr_and255, shr_and255, shr_and255, shr_and255, shr_and255,
    and255_eq_mod]
  rw [lor_eq_add_high 56 ((v / 2 ^ 56 % 256) * 2 ^ 56) ((v / 2 ^ 48 % 256) * 2 ^ 48)
    (by omega) (by omega)]
  rw [lor_eq_add_high 48 ((v / 2 ^ 56 % 256) * 2 ^ 56 + (v / 2 ^ 48 % 256) * 2 ^ 48)
    ((v / 2 ^ 40 % 256) * 2 ^ 40) (by omega) (by omega)]
  rw [lor_eq_add_high 40
    ((v / 2 ^ 56 % 256) * 2 ^ 56 + (v / 2 ^ 48 % 256) * 2 ^ 48 + (v / 2 ^ 40 % 256) * 2 ^ 40)
    ((v / 2 ^ 32 % 256) * 2 ^ 32) (by omega) (by omega)]
  rw [lor_eq_add_high 32
    ((v / 2 ^ 56 % 256) * 2 ^ 56 + (v / 2 ^ 48 % 256) * 2 ^ 48 + (v / 2 ^ 40 % 256) * 2 ^ 40
      + (v / 2 ^ 32 % 256) * 2 ^ 32)
    ((v / 2 ^ 24 % 256) * 2 ^ 24) (by omega) (by omega)]
  rw [lor_eq_add_high 24
    ((v / 2 ^ 56 % 256) * 2 ^ 56 + (v / 2 ^ 48 % 256) * 2 ^ 48 + (v / 2 ^ 40 % 256) * 2 ^ 40
      + (v / 2 ^ 32 % 256) * 2 ^ 32 + (v / 2 ^ 24 % 256) * 2 ^ 24)
    ((v / 2 ^ 16 % 256) * 2 ^ 16) (by omega) (by omega)]
  rw [lor_eq_add_high 16
    ((v / 2 ^ 56 % 256) * 2 ^ 56 + (v / 2 ^ 48 % 256) * 2 ^ 48 + (v / 2 ^ 40 % 256) * 2 ^ 40
      + (v / 2 ^ 32 % 256) * 2 ^ 32 + (v / 2 ^ 24 % 256) * 2 ^ 24 + (v / 2 ^ 16 % 256) * 2 ^ 16)
    ((v / 2 ^ 8 % 256) * 2 ^ 8) (by omega) (by omega)]
  rw [lor_eq_add_high 8
    ((v / 2 ^ 56 % 256) * 2 ^ 56 + (v / 2 ^ 48 % 256) * 2 ^ 48 + (v / 2 ^ 40 % 256) * 2 ^ 40
      + (v / 2 ^ 32 % 256) * 2 ^ 32 + (v / 2 ^ 24 % 256) * 2 ^ 24 + (v / 2 ^ 16 % 256) * 2 ^ 16
      + (v / 2 ^ 8 % 256) * 2 ^ 8)
    (v % 256) (by omega) (by omega)]
  omega

theorem scnRtLittle (b : Buf8) (v : Nat) (h63 : v < 2 ^ 63)
    (hex : ¬(v % 2 ^ 32 = 2 ^ 32 - 1 ∧ v / 2 ^ 48 = 2 ^ 15 - 1)) :
    readSCNLittle (writeSCNLittle b v) = v := by
  by_cases hs : v < 0x800000000000
  · simp only [writeSCNLittle, readSCNLittle, if_pos hs]
    simp only [shr_and255, and255_eq_mod]
    rw [if_neg (by omega)]
    rw [and128_eq_zero _ (by omega)]
    rw [if_neg (by omega)]
    rw [lor_shl_eq_add 8 _ _ (by omega)]
    rw [lor_shl_eq_add 16 _ _ (by omega)]
    rw [lor_shl_eq_add 24 _ _ (by omega)]
    rw [lor_shl_eq_add 32 _ _ (by omega)]
    rw [lor_shl_eq_add 40 _ _ (by omega)]
    omega
  · simp only [writeSCNLittle, readSCNLittle, if_neg hs]
    simp only [shr_and255, and255_eq_mod]
    rw [or128_and128 _ (by omega), or128_and127 _ (by omega), or128_eq_add _ (by omega)]
    rw [if_neg (by omega)]
    rw [if_pos rfl]
    rw [lor_shl_eq_add 8 _ _ (by omega)]
    rw [lor_shl_eq_add 16 _ _ (by omega)]
    rw [lor_shl_eq_add 24 _ _ (by omega)]
    rw [lor_shl_eq_add 32 _ _ (by omega)]
    rw [lor_shl_eq_add 40 _ _ (by omega)]
    rw [lor_shl_eq_add 48 _ _ (by omega)]
    rw [lor_shl_eq_add 56 _ _ (by omega)]
    omega

theorem scnRtBig (b : Buf8) (v : Nat) (h63 : v < 2 ^ 63)
    (hex : ¬(v % 2 ^ 32 = 2 ^ 32 - 1 ∧ v / 2 ^ 48 = 2 ^ 15 - 1)) :
    readSCNBig (writeSCNBig b v) = v := by
  by_cases hs : v < 0x800000000000
  · simp only [writeSCNBig, readSCNBig, if_pos hs]
    simp only [shr_and255, and255_eq_mod]
    rw [if_neg (by omega)]
    rw [and128_eq_zero _ (by omega)]
    rw [if_neg (by omega)]
    rw [lor_shl_eq_add 8 _ _ (by omega)]
    rw [lor_shl_eq_add 16 _ _ (by omega)]
    rw [lor_shl_eq_add 24 _ _ (by omega)]
    rw [lor_shl_eq_add 32 _ _ (by omega)]
    rw [lor_shl_eq_add 40 _ _ (by omega)]
    omega
  · simp only [writeSCNBig, readSCNBig, if_neg hs]
    simp only [shr_and255, and255_eq_mod]
    rw [or128_and128 _ (by omega), or128_and127 _ (by omega), or128_eq_add _ (by omega)]
    rw [if_neg (by omega)]
    rw [if_pos rfl]
    rw [lor_shl_eq_add 8 _ _ (by omega)]
    rw [lor_shl_eq_add 16 _ _ (by omega)]
    rw [lor_shl_eq_add 24 _ _ (by omega)]
    rw [lor_shl_eq_add 32 _ _ (by omega)]
    rw [lor_shl_eq_add 40 _ _ (by omega)]
    rw [lor_shl_eq_add 48 _ _ (by omega)]
    rw [lor_shl_eq_add 56 _ _ (by omega)]
    omega

/-! ## Helper lemmas for the checkpoint minimum fold -/

theorem ckptFold_le_init (l : List Transaction) (m0 : Nat) :
    l.foldl (fun m t => if m > t.firstSequence then t.firstSequence else m) m0 ≤ m0 := by
  induction l generalizing m0 with
  | nil => simp
  | cons t ts ih =>
    simp only [List.foldl_cons]
    split
    · exact le_trans (ih _) (by omega)
    · exact ih m0

theorem ckptFold_le_mem (l : List Transaction) (m0 : Nat) :
    ∀ t ∈ l, l.foldl (fun m t => if m > t.firstSequence then t.firstSequence else m) m0
      ≤ t.firstSequence := by
  induction l generalizing m0 with
  | nil => simp
  | cons u us ih =>
    intro t ht
    simp only [List.foldl_cons]
    rcases List.mem_cons.mp ht with h | h
    · subst h
      split
      · exact ckptFold_le_init us _
      · exact le_trans (ckptFold_le_init us _) (by omega)
    · exact ih _ t h

theorem ckptFold_attained (l : List Transaction) (m0 : Nat) :
    l.foldl (fun m t => if m > t.firstSequence then t.firstSequence else m) m0 = m0 ∨
      ∃ t ∈ l, l.foldl (fun m t => if m > t.firstSequence then t.firstSequence else m) m0
        = t.firstSequence := by
  induction l generalizing m0 with
  | nil => simp
  | cons u us ih =>
    simp only [List.foldl_cons]
    split
    · rcases ih u.firstSequence with h | ⟨t, ht, h⟩
      · right; exact ⟨u, List.mem_cons_self u us, h⟩
      · right; exact ⟨t, List.mem_cons_of_mem u ht, h⟩
    · rcases ih m0 with h | ⟨t, ht, h⟩
      · left; exact h
      · right; exact ⟨t, List.mem_cons_of_mem u ht, h⟩

/-! ## Helper lemmas for the catalog map -/

theorem mem_mapStore (m : ObjMap) (k : Nat) (v : Option OracleObject)
    (k1 : Nat) (v1 : Option OracleObject) (h : (k1, v1) ∈ mapStore m k v) :
    (k1, v1) ∈ m ∨ (k1 = k ∧ v1 = v) := by
  induction m with
  | nil =>
    simp only [mapStore, List.mem_singleton, Prod.mk.injEq] at h
    exact Or.inr h
  | cons p t ih =>
    obtain ⟨pk, pv⟩ := p
    simp only [mapStore] at h
    split at h
    · rename_i heq
      rcases List.mem_cons.mp h with h1 | h1
      · simp only [Prod.mk.injEq] at h1
        exact Or.inr ⟨by omega, h1.2⟩
      · exact Or.inl (List.mem_cons_of_mem _ h1)
    · rcases List.mem_cons.mp h with h1 | h1
      · exact Or.inl (h1 ▸ List.mem_cons_self _ _)
      · rcases ih h1 with h2 | h2
        · exact Or.inl (List.mem_cons_of_mem _ h2)
        · exact Or.inr h2

theorem mem_mapIndex_snd (m : ObjMap) (k : Nat) (k1 : Nat) (v1 : Option OracleObject)
    (h : (k1, v1) ∈ (mapIndex m k).2) : (k1, v1) ∈ m ∨ v1 = none := by
  unfold mapIndex at h
  split at h
  · exact Or.inl h
  · rcases List.mem_append.mp h with h1 | h1
    · exact Or.inl h1
    · right
      simp only [List.mem_singleton, Prod.mk.injEq] at h1
      exact h1.2

theorem mem_addToDict (obj : OracleObject) (m : ObjMap) (k : Nat) (o : OracleObject)
    (h : (k, some o) ∈ addToDict obj m) : (k, some o) ∈ m ∨ o = obj := by
  simp only [addToDict] at h
  split at h
  · rcases mem_mapStore _ _ _ _ _ h with h1 | h1
    · rcases mem_mapIndex_snd _ _ _ _ h1 with h2 | h2
      · exact Or.inl h2
      · exact absurd h2 (by simp)
    · right
      have h3 := h1.2
      simp only [Option.some.injEq] at h3
      exact h3
  · rcases mem_mapIndex_snd _ _ _ _ h with h2 | h2
    · exact Or.inl h2
    · exact absurd h2 (by simp)

theorem buildObject_cluCols (row : TabRow) (o : OracleObject)
    (h : buildObject row = some o) : o.cluCols = 0 := by
  unfold buildObject at h
  split at h
  · exact absurd h (by simp)
  · rw [Option.some.injEq] at h
    rw [← h]

/-! ## Claim theorems -/

/-- C1 (amended): for every 64-bit value `v` with `0 ≤ v < 2^63`,
`v ≠ ZERO_SCN`, and excluding the values whose extended encoding collides
with the six-`0xFF` sentinel (those with `v mod 2^32 = 2^32 − 1` and
`v div 2^48 = 2^15 − 1`), `readSCN (writeSCN v) = v` for both the
little-endian and the big-endian function tables, whatever the buffer's
previous contents. -/
theorem claimC1_scnRoundTrip (b : Buf8) (v : Nat) (h63 : v < 2 ^ 63)
    (hz : v ≠ ZERO_SCN)
    (hex : ¬(v % 2 ^ 32 = 2 ^ 32 - 1 ∧ v / 2 ^ 48 = 2 ^ 15 - 1)) :
    readSCNLittle (writeSCNLittle b v) = v ∧ readSCNBig (writeSCNBig b v) = v :=
  ⟨scnRtLittle b v h63 hex, scnRtBig b v h63 hex⟩

/-- C1 witness: the round trip at the concrete extended-form value
`0x0123456789ABCDEF`, for both endiannesses. -/
theorem claimC1_scnRoundTrip_w :
    readSCNLittle (writeSCNLittle zeroBuf 0x0123456789ABCDEF) = 0x0123456789ABCDEF ∧
    readSCNBig (writeSCNBig zeroBuf 0x0123456789ABCDEF) = 0x0123456789ABCDEF :=
  claimC1_scnRoundTrip zeroBuf 0x0123456789ABCDEF (by decide) (by decide) (by decide)

/-- C1 counterexample: `v = 2^63 − 1` is in the claim's domain
(`v < 2^63` and `v ≠ ZERO_SCN`), yet its extended encoding has `0xFF` in
bytes 0..5, so `readSCN` takes the sentinel branch and returns `ZERO_SCN`
instead of `v` — the claimed round trip fails. -/
theorem claimC1_ce :
    (2 ^ 63 - 1 : Nat) < 2 ^ 63 ∧ (2 ^ 63 - 1 : Nat) ≠ ZERO_SCN ∧
    readSCNLittle (writeSCNLittle zeroBuf (2 ^ 63 - 1)) = ZERO_SCN ∧
    readSCNLittle (writeSCNLittle zeroBuf (2 ^ 63 - 1)) ≠ 2 ^ 63 - 1 ∧
    readSCNBig (writeSCNBig zeroBuf (2 ^ 63 - 1)) ≠ 2 ^ 63 - 1 := by
  refine ⟨by decide, by decide, by decide, by decide, by decide⟩

/-- C2 (amended): `writeCheckpoint` writes `database`, `scn` and `resetlogs`
from the reader's current state; its `sequence` field is the minimum
`firstSequence` over the open transactions whenever some open transaction
has `firstSequence < 0xFFFFFFFF`, and is `databaseSequence` when no
transactions are open or every open transaction's `firstSequence` equals
`0xFFFFFFFF` (the scan's sentinel initial value). -/
theorem claimC2_writeCheckpoint (s : ReaderState)
    (hb : ∀ t ∈ s.transactionHeap, t.firstSequence ≤ 4294967295) :
    (writeCheckpoint s).database = s.database ∧
    (writeCheckpoint s).scn = s.databaseScn ∧
    (writeCheckpoint s).resetlogs = s.resetlogs ∧
    ((s.transactionHeap = [] ∨ ∀ t ∈ s.transactionHeap, t.firstSequence = 4294967295) →
      (writeCheckpoint s).sequence = s.databaseSequence) ∧
    ((∃ t ∈ s.transactionHeap, t.firstSequence < 4294967295) →
      (∃ t ∈ s.transactionHeap, t.firstSequence = (writeCheckpoint s).sequence) ∧
      ∀ t ∈ s.transactionHeap, (writeCheckpoint s).sequence ≤ t.firstSequence) := by
  refine ⟨rfl, rfl, rfl, ?_, ?_⟩
  · intro hcase
    rcases hcase with he | hall
    · simp [writeCheckpoint, he]
    · have hf : s.transactionHeap.foldl
          (fun m t => if m > t.firstSequence then t.firstSequence else m) 4294967295
          = 4294967295 := by
        rcases ckptFold_attained s.transactionHeap 4294967295 with h | ⟨t, ht, h⟩
        · exact h
        · rw [h, hall t ht]
      simp [writeCheckpoint, hf]
  · intro hex
    obtain ⟨t, ht, hlt⟩ := hex
    have hle := ckptFold_le_mem s.transactionHeap 4294967295 t ht
    have hne : s.transactionHeap.foldl
        (fun m t => if m > t.firstSequence then t.firstSequence else m) 4294967295
        ≠ 4294967295 := by omega
    have hseq : (writeCheckpoint s).sequence = s.transactionHeap.foldl
        (fun m t => if m > t.firstSequence then t.firstSequence else m) 4294967295 := by
      simp [writeCheckpoint, hne]
    constructor
    · rcases ckptFold_attained s.transactionHeap 4294967295 with h | ⟨u, hu, h⟩
      · exact absurd h hne
      · exact ⟨u, hu, by rw [hseq, h]⟩
    · intro u hu
      rw [hseq]
      exact ckptFold_le_mem s.transactionHeap 4294967295 u hu

/-- C2 witness: the spec's checkpoint scenario — expected sequence 200, open
transactions with `firstSequence` 195 and 198; the written `sequence` is
attained by an open transaction and bounds all of them below (hence 195). -/
theorem claimC2_writeCheckpoint_w :
    ((∃ t ∈ wC2State.transactionHeap,
        t.firstSequence = (writeCheckpoint wC2State).sequence) ∧
      ∀ t ∈ wC2State.transactionHeap,
        (writeCheckpoint wC2State).sequence ≤ t.firstSequence) ∧
    (writeCheckpoint wC2State).scn = wC2State.databaseScn :=
  ⟨(claimC2_writeCheckpoint wC2State (by decide)).2.2.2.2
      ⟨⟨195⟩, by decide, by decide⟩,
    (claimC2_writeCheckpoint wC2State (by decide)).2.1⟩

/-- C2 counterexample: a state with one open transaction whose
`firstSequence` is `0xFFFFFFFF` (a representable `uint32_t` value) and
`databaseSequence = 7`: the checkpoint's `sequence` is 7, not the minimum
`firstSequence` (`0xFFFFFFFF`) the claim requires while transactions are
open. -/
theorem claimC2_ce :
    ceC2State.transactionHeap ≠ [] ∧
    (∀ t ∈ ceC2State.transactionHeap, t.firstSequence = 4294967295) ∧
    (writeCheckpoint ceC2State).sequence = 7 ∧ (7 : Nat) ≠ 4294967295 := by
  refine ⟨by decide, by decide, by decide, by decide⟩

/-- C3: at the failing input (queue holding handles with sequences 5 and 6,
expected sequence 6) the archive-phase iteration takes the
`sequence < databaseSequence` branch for the stale top handle and returns
the queue UNCHANGED — the stale handle is not removed (the source's
`continue` at line 263 skips `archiveRedoQueue.pop()`), so the next
iteration examines the same handle again: the phase never reaches the
matching handle with sequence 6, contradicting the claimed
drop-and-continue behaviour. -/
theorem claimC3_staleNotPopped :
    archiveIter [⟨5⟩, ⟨6⟩] 6 = (.dropStale, [⟨5⟩, ⟨6⟩], 6) ∧
    archiveIter [⟨5⟩] 6 = (.dropStale, [⟨5⟩], 6) := by
  refine ⟨by decide, by decide⟩

/-- C4: when the smallest handle in the non-empty archive queue has
`sequence` strictly greater than the expected sequence, the iteration ends
with the fatal `SequenceGap` outcome (the `RedoLogException` at line 266,
which terminates the loop): the handle is not dispatched and the expected
sequence is unchanged. -/
theorem claimC4_sequenceGap (queue : List RedoHandle) (seq : Nat) (r : RedoHandle)
    (htop : pqTop queue = some r) (hgt : r.sequence > seq) :
    archiveIter queue seq = (.fatalGap r.sequence, queue, seq) := by
  unfold archiveIter
  rw [htop]
  dsimp only
  rw [if_neg (by omega), if_pos hgt]

/-- C4 witness: the spec's cold-start-gap scenario — checkpoint sequence 50,
archive starting at 60. -/
theorem claimC4_sequenceGap_w :
    archiveIter [⟨60⟩, ⟨61⟩] 50 = (.fatalGap 60, [⟨60⟩, ⟨61⟩], 50) :=
  claimC4_sequenceGap [⟨60⟩, ⟨61⟩] 50 ⟨60⟩ (by decide) (by decide)

/-- C5: at bootstrap, when the stored `resetlogs` is non-zero and differs
from the live `RESETLOGS_ID`, `initialize` returns 0 and keeps the stored
`resetlogs`; otherwise (stored zero or equal to the live value) the reader
adopts the live `RESETLOGS_ID`. -/
theorem claimC5_incarnation (s : ReaderState) (row : DatabaseRow)
    (conIdRow logRow : Option Nat)
    (hlog : row.logMode = "ARCHIVELOG") (hsupp : row.supplementalLogDataMin = "YES") :
    (s.resetlogs ≠ 0 → row.resetlogsId ≠ s.resetlogs →
      (initReader s (some row) conIdRow logRow).1 = 0 ∧
      ((initReader s (some row) conIdRow logRow).2).resetlogs = s.resetlogs) ∧
    ((s.resetlogs = 0 ∨ row.resetlogsId = s.resetlogs) →
      ((initReader s (some row) conIdRow logRow).2).resetlogs = row.resetlogsId) := by
  simp only [initReader, hlog, hsupp, ne_eq, not_true_eq_false, if_false, ite_false]
  constructor
  · intro h1 h2
    by_cases hend : row.endianFormat = "Big" <;>
      simp only [hend, if_true, if_false, ite_true, ite_false] <;>
      rw [if_pos (by constructor <;> simpa [hend])] <;> exact ⟨rfl, rfl⟩
  · intro h
    rcases conIdRow with _ | c <;> rcases logRow with _ | seq <;>
      by_cases hend : row.endianFormat = "Big" <;>
      simp only [hend, if_true, if_false, ite_true, ite_false] <;>
      rw [if_neg (by simp; omega)] <;>
      (split <;> (first | rfl | (split <;> (first | rfl | (split <;> rfl)))))

/-- C5 witness: the spec's incarnation-mismatch scenario (stored
`resetlogs = 1`, live `RESETLOGS_ID = 2`) aborts with 0 keeping
`resetlogs = 1`; the same row against a cold state (stored `resetlogs = 0`)
adopts 2. -/
theorem claimC5_incarnation_w :
    ((initReader wC5State (some wC5Row) none none).1 = 0 ∧
      ((initReader wC5State (some wC5Row) none none).2).resetlogs = 1) ∧
    ((initReader coldState (some wC5Row) none none).2).resetlogs = 2 :=
  ⟨(claimC5_incarnation wC5State wC5Row none none rfl rfl).1
      (by decide) (by decide),
    (claimC5_incarnation coldState wC5Row none none rfl rfl).2 (Or.inl rfl)⟩

/-- C6: when the checkpoint file is absent, or fails to parse, or carries a
`database` field different from the configured name, `readCheckpoint`
leaves the reader state — in particular `sequence`, `scn` and `resetlogs` —
exactly as it was. -/
theorem claimC6_readCheckpoint (s : ReaderState) (file : Option (Option CheckpointDoc))
    (h : file = none ∨ file = some none ∨
      ∃ d, file = some (some d) ∧ d.database ≠ s.database) :
    readCheckpoint s file = s := by
  rcases h with h | h | ⟨d, hd, hne⟩
  · rw [h]; rfl
  · rw [h]; rfl
  · rw [hd]
    unfold readCheckpoint
    dsimp only
    rw [if_pos (Ne.symm hne)]

/-- C6 witness: on a cold start (file absent, state all zero) the state is
unchanged, so `sequence`, `scn` and `resetlogs` remain 0; likewise for a
parse failure and for a database-name mismatch. -/
theorem claimC6_readCheckpoint_w :
    readCheckpoint coldState none = coldState ∧
    readCheckpoint coldState (some none) = coldState ∧
    readCheckpoint coldState (some (some ⟨"OTHER", 9, 9, 9⟩)) = coldState :=
  ⟨claimC6_readCheckpoint coldState none (Or.inl rfl),
    claimC6_readCheckpoint coldState (some none) (Or.inr (Or.inl rfl)),
    claimC6_readCheckpoint coldState (some (some ⟨"OTHER", 9, 9, 9⟩))
      (Or.inr (Or.inr ⟨⟨"OTHER", 9, 9, 9⟩, rfl, by decide⟩))⟩

/-- C7: for both endianness tables, `readSCN` of any buffer whose first six
bytes are all `0xFF` returns `ZERO_SCN`, for every value of the trailing
two bytes. -/
theorem claimC7_sentinel (b6 b7 : Nat) :
    readSCNLittle ⟨0xFF, 0xFF, 0xFF, 0xFF, 0xFF, 0xFF, b6, b7⟩ = ZERO_SCN ∧
    readSCNBig ⟨0xFF, 0xFF, 0xFF, 0xFF, 0xFF, 0xFF, b6, b7⟩ = ZERO_SCN := by
  exact ⟨by simp [readSCNLittle], by simp [readSCNBig]⟩

/-- C8: the fixed-width codec round trips: for every value within the
width's range, `read16 (write16 v) = v`, and likewise for 32, 56 and 64
bits, for both the little-endian and the big-endian function tables. -/
theorem claimC8_roundTrips (v : Nat) :
    (v < 2 ^ 16 → read16Little (write16Little v) = v ∧ read16Big (write16Big v) = v) ∧
    (v < 2 ^ 32 → read32Little (write32Little v) = v ∧ read32Big (write32Big v) = v) ∧
    (v < 2 ^ 56 → read56Little (write56Little v) = v ∧ read56Big (write56Big v) = v) ∧
    (v < 2 ^ 64 → read64Little (write64Little v) = v ∧ read64Big (write64Big v) = v) :=
  ⟨fun h => ⟨rt16Little v h, rt16Big v h⟩,
    fun h => ⟨rt32Little v h, rt32Big v h⟩,
    fun h => ⟨rt56Little v h, rt56Big v h⟩,
    fun h => ⟨rt64Little v h, rt64Big v h⟩⟩

/-- C8 witness: all eight round trips at the concrete value 300. -/
theorem claimC8_roundTrips_w :
    (read16Little (write16Little 300) = 300 ∧ read16Big (write16Big 300) = 300) ∧
    (read32Little (write32Little 300) = 300 ∧ read32Big (write32Big 300) = 300) ∧
    (read56Little (write56Little 300) = 300 ∧ read56Big (write56Big 300) = 300) ∧
    (read64Little (write64Little 300) = 300 ∧ read64Big (write64Big 300) = 300) :=
  ⟨(claimC8_roundTrips 300).1 (by decide),
    (claimC8_roundTrips 300).2.1 (by decide),
    (claimC8_roundTrips 300).2.2.1 (by decide),
    (claimC8_roundTrips 300).2.2.2 (by decide)⟩

/-- C9 (amended): `checkDict objn` returns the value stored under `objn`
and leaves the catalog unchanged when `objn` is present; when `objn` is
absent it returns null AND appends a null-pointer entry for `objn` (the
`std::map::operator[]` default insertion), leaving every existing entry
unchanged. -/
theorem claimC9_checkDict (objn objd : Nat) (m : ObjMap) :
    (∀ v, m.lookup objn = some v → checkDict objn objd m = (v, m)) ∧
    (m.lookup objn = none →
      checkDict objn objd m = (none, m ++ [(objn, none)])) := by
  unfold checkDict mapIndex
  constructor
  · intro v hv
    rw [hv]
  · intro hv
    rw [hv]

/-- C9 witness: a hit leaves the map unchanged; a miss appends the null
entry. -/
theorem claimC9_checkDict_w :
    checkDict 5 0 [(5, some wC10Obj)] = (some wC10Obj, [(5, some wC10Obj)]) ∧
    checkDict 7 0 ([] : ObjMap) = (none, [(7, none)]) :=
  ⟨(claimC9_checkDict 5 0 [(5, some wC10Obj)]).1 (some wC10Obj) rfl,
    (claimC9_checkDict 7 0 []).2 rfl⟩

/-- C9 counterexample: looking up an `objn` absent from an empty catalog
adds an entry — the returned map is `[(5, none)]`, not the unchanged `[]`
the claim requires. -/
theorem claimC9_ce :
    (checkDict 5 0 ([] : ObjMap)).2 = [(5, none)] ∧
    (checkDict 5 0 ([] : ObjMap)).2 ≠ ([] : ObjMap) := by
  refine ⟨by decide, by decide⟩

/-- C10: every descriptor `addTable` inserts into the catalog (i.e. every
non-null entry of the resulting map that was not already in the input map)
has `cluCols = 0`, whatever the metadata rows' `CLUCOLS` values: the
fetched `CLUCOLS` value is discarded and never reaches the constructor. -/
theorem claimC10_cluColsZero (rows : List TabRow) (m : ObjMap) (k : Nat)
    (obj : OracleObject) (h : (k, some obj) ∈ addTable rows m) :
    (k, some obj) ∈ m ∨ obj.cluCols = 0 := by
  induction rows generalizing m with
  | nil =>
    left
    simpa [addTable] using h
  | cons r rs ih =>
    simp only [addTable, List.foldl_cons] at h
    rcases ih _ h with h1 | h1
    · cases hb : buildObject r with
      | none =>
        rw [hb] at h1
        exact Or.inl h1
      | some o =>
        rw [hb] at h1
        rcases mem_addToDict _ _ _ _ h1 with h2 | h2
        · exact Or.inl h2
        · right
          rw [h2]
          exact buildObject_cluCols r o hb
    · exact Or.inr h1

/-- C10 witness: a row with non-null `CLUCOLS = 7` still yields a
descriptor with `cluCols = 0` in the catalog. -/
theorem claimC10_cluColsZero_w :
    ((5, some wC10Obj) ∈ ([] : ObjMap)) ∨ wC10Obj.cluCols = 0 :=
  claimC10_cluColsZero [wC10Row] [] 5 wC10Obj (by decide)

end OLR
